import Mathlib

/-!
Shallow embedding of the tidis transactional-engine core: the global client
state and session accessors of `src/tikv/mod.rs` (`get_client`,
`get_txn_client`, `do_async_txn_connect`, `do_async_raw_connect`,
`do_async_connect`, `gen_next_meta_index`) and the `LTRIM` command layer of
`src/cmd/ltrim.rs` (`Ltrim::parse_argv`, `Ltrim::ltrim`).

Modelling conventions:
- Rust global mutable state (`TIKV_RAW_CLIENT`, `TIKV_TXN_CLIENTS`,
  `TIKV_TXN_CLIENT_IDX`, `PD_ADDRS`) becomes an explicit `GlobalState`
  record threaded through the functions.
- A Rust function that can panic (an `unwrap` on `None`, a `%` by zero)
  returns `Option`: `none` is the panic outcome.
- Fallible backend constructors (`TransactionClient::new_with_config`,
  `RawClient::new_with_config`) and configuration getters, which live
  outside this crate, are supplied by an environment record `ConnEnv`.
- Machine integers are modelled as `Nat`/`Int`; `i64` range checks are
  explicit where Rust's `str::parse::<i64>` performs them.
-/

/-- Error type standing for the crate's `RTError`; `notConnected` is
`REDIS_BACKEND_NOT_CONNECTED_ERR`. -/
inductive RTError where
  | notConnected
  | backend (msg : String)
  deriving DecidableEq, Repr

/-- The constant `REDIS_BACKEND_NOT_CONNECTED_ERR` from `src/tikv/errors.rs`. -/
def REDIS_BACKEND_NOT_CONNECTED_ERR : RTError := RTError.notConnected

/-- Connection-establishment error (the error side of `AsyncResult` in the
connect functions). -/
inductive ConnError where
  | err (msg : String)
  deriving DecidableEq, Repr

/-- Model of `tikv_client::Config` as built by the connect functions: every
`with_*` setter records its value; `security` records the CA/cert/key triple
when `with_security` was applied. -/
structure TikvConfig where
  timeout : Option Nat := none
  kvTimeout : Option Nat := none
  allowBatch : Option Bool := none
  completionQueueSize : Option Nat := none
  grpcKeepaliveTime : Option Nat := none
  grpcKeepaliveTimeout : Option Nat := none
  overloadThreshold : Option Nat := none
  maxBatchSize : Option Nat := none
  maxInflightRequests : Option Nat := none
  maxBatchWaitTime : Option Nat := none
  security : Option (String × String × String) := none
  deriving DecidableEq, Repr

/-- `tikv_client::Config::default()`. -/
def TikvConfig.default : TikvConfig := {}

def TikvConfig.with_timeout (c : TikvConfig) (t : Nat) : TikvConfig :=
  { c with timeout := some t }

def TikvConfig.with_kv_timeout (c : TikvConfig) (t : Nat) : TikvConfig :=
  { c with kvTimeout := some t }

def TikvConfig.with_kv_allow_batch (c : TikvConfig) (b : Bool) : TikvConfig :=
  { c with allowBatch := some b }

def TikvConfig.with_kv_completion_queue_size (c : TikvConfig) (n : Nat) : TikvConfig :=
  { c with completionQueueSize := some n }

def TikvConfig.with_kv_grpc_keepalive_time (c : TikvConfig) (n : Nat) : TikvConfig :=
  { c with grpcKeepaliveTime := some n }

def TikvConfig.with_kv_grpc_keepalive_timeout (c : TikvConfig) (n : Nat) : TikvConfig :=
  { c with grpcKeepaliveTimeout := some n }

def TikvConfig.with_kv_overload_threshold (c : TikvConfig) (n : Nat) : TikvConfig :=
  { c with overloadThreshold := some n }

def TikvConfig.with_kv_max_batch_size (c : TikvConfig) (n : Nat) : TikvConfig :=
  { c with maxBatchSize := some n }

def TikvConfig.with_kv_max_inflight_requests (c : TikvConfig) (n : Nat) : TikvConfig :=
  { c with maxInflightRequests := some n }

def TikvConfig.with_kv_max_batch_wait_time (c : TikvConfig) (n : Nat) : TikvConfig :=
  { c with maxBatchWaitTime := some n }

def TikvConfig.with_security (c : TikvConfig) (ca cert key : String) : TikvConfig :=
  { c with security := some (ca, cert, key) }

/-- A `tikv_client::TransactionClient`, abstracted to the data the engine
observes about it. -/
structure TxnClient where
  id : Nat
  deriving DecidableEq, Repr

/-- A `tikv_client::RawClient`, abstracted likewise. -/
structure RawClient where
  id : Nat
  deriving DecidableEq, Repr

/-- `TxnClientWrapper` of `src/tikv/client.rs` around a borrowed client. -/
structure TxnClientWrapper where
  client : TxnClient
  deriving DecidableEq, Repr

def TxnClientWrapper.new (c : TxnClient) : TxnClientWrapper := ⟨c⟩

/-- `RawClientWrapper` of `src/tikv/client.rs` around a borrowed client. -/
structure RawClientWrapper where
  client : RawClient
  deriving DecidableEq, Repr

def RawClientWrapper.new (c : RawClient) : RawClientWrapper := ⟨c⟩

/-- The process-wide mutable state of `src/tikv/mod.rs`: `PD_ADDRS`,
`TIKV_RAW_CLIENT`, `TIKV_TXN_CLIENTS` and `TIKV_TXN_CLIENT_IDX`. At process
start every optional is `none` and the index counter is 0. -/
structure GlobalState where
  pdAddrs : Option (List String)
  rawClient : Option RawClient
  txnClients : Option (List TxnClient)
  txnClientIdx : Nat
  deriving DecidableEq, Repr

/-- The process-start state. -/
def GlobalState.initial : GlobalState :=
  { pdAddrs := none, rawClient := none, txnClients := none, txnClientIdx := 0 }

/-- `get_client` of `src/tikv/mod.rs`: returns `REDIS_BACKEND_NOT_CONNECTED_ERR`
when `TIKV_RAW_CLIENT` is `None`, otherwise wraps the raw client. The `unwrap`
after the `is_none` check cannot fail, so no `none` (panic) outcome arises. -/
def get_client (s : GlobalState) : Option (Except RTError RawClientWrapper) :=
  match s.rawClient with
  | none => some (Except.error REDIS_BACKEND_NOT_CONNECTED_ERR)
  | some client => some (Except.ok (RawClientWrapper.new client))

/-- `get_txn_client` of `src/tikv/mod.rs`. The guard tests `TIKV_RAW_CLIENT`
(not the transactional list); past the guard the code `unwrap`s
`TIKV_TXN_CLIENTS` and reduces the counter modulo its length, so a `None`
transactional list, or an empty one, is a panic (`none` here). On success the
selected index is stored back into `TIKV_TXN_CLIENT_IDX`. -/
def get_txn_client (s : GlobalState) :
    Option (Except RTError (TxnClientWrapper × GlobalState)) :=
  match s.rawClient with
  | none => some (Except.error REDIS_BACKEND_NOT_CONNECTED_ERR)
  | some _ =>
    match s.txnClients with
    | none => none
    | some clients =>
      if h : 0 < clients.length then
        let idx := (s.txnClientIdx + 1) % clients.length
        some (Except.ok (TxnClientWrapper.new (clients.get ⟨idx, Nat.mod_lt _ h⟩),
          { s with txnClientIdx := idx }))
      else none

/-- Environment for the connect functions: the configuration getters
(`backend_*_or_default`, `conn_concurrency_or_default`) resolved outside this
module, and the fallible backend client constructors (indexed by loop
iteration for the transactional pool). -/
structure ConnEnv where
  timeout : Nat
  allowBatch : Bool
  completionQueueSize : Nat
  grpcKeepaliveTime : Nat
  grpcKeepaliveTimeout : Nat
  overloadThreshold : Nat
  maxBatchSize : Nat
  maxInflightRequests : Nat
  maxBatchWaitTime : Nat
  caFile : String
  certFile : String
  keyFile : String
  concurrency : Nat
  newTxnClient : Nat → List String → TikvConfig → Except ConnError TxnClient
  newRawClient : List String → TikvConfig → Except ConnError RawClient

/-- The configuration value built by `do_async_txn_connect` before the client
loop: all tuning knobs, then `with_security` exactly when one of the CA, cert
or key paths is non-empty. -/
def txnConnectConfig (env : ConnEnv) : TikvConfig :=
  let config := TikvConfig.default
    |>.with_timeout env.timeout
    |>.with_kv_timeout env.timeout
    |>.with_kv_allow_batch env.allowBatch
    |>.with_kv_completion_queue_size env.completionQueueSize
    |>.with_kv_grpc_keepalive_time env.grpcKeepaliveTime
    |>.with_kv_grpc_keepalive_timeout env.grpcKeepaliveTimeout
    |>.with_kv_allow_batch env.allowBatch
    |>.with_kv_overload_threshold env.overloadThreshold
    |>.with_kv_max_batch_size env.maxBatchSize
    |>.with_kv_max_inflight_requests env.maxInflightRequests
    |>.with_kv_max_batch_wait_time env.maxBatchWaitTime
  if env.caFile ≠ "" ∨ env.certFile ≠ "" ∨ env.keyFile ≠ "" then
    config.with_security env.caFile env.certFile env.keyFile
  else config

/-- The configuration value built by `do_async_raw_connect`: only the timeout,
then the same conditional `with_security`. -/
def rawConnectConfig (env : ConnEnv) : TikvConfig :=
  let config := TikvConfig.default.with_timeout env.timeout
  if env.caFile ≠ "" ∨ env.certFile ≠ "" ∨ env.keyFile ≠ "" then
    config.with_security env.caFile env.certFile env.keyFile
  else config

/-- The `for _ in 0..conn_concurrency_or_default()` loop of
`do_async_txn_connect`: build `n` more clients starting at iteration `i`,
short-circuiting on the first failure (the `?` operator). -/
def buildTxnClients (env : ConnEnv) (addrs : List String) (cfg : TikvConfig) :
    Nat → Nat → Except ConnError (List TxnClient)
  | _, 0 => Except.ok []
  | i, Nat.succ m =>
    match env.newTxnClient i addrs cfg with
    | Except.error e => Except.error e
    | Except.ok c =>
      match buildTxnClients env addrs cfg (i + 1) m with
      | Except.error e => Except.error e
      | Except.ok rest => Except.ok (c :: rest)

/-- `do_async_txn_connect` of `src/tikv/mod.rs`: first replaces `PD_ADDRS`
with the supplied addresses, then builds the config, then creates
`conn_concurrency_or_default()` transactional clients; only if every creation
succeeds is `TIKV_TXN_CLIENTS` replaced with the full vector. -/
def do_async_txn_connect (env : ConnEnv) (addrs : List String) (s : GlobalState) :
    GlobalState × Except ConnError Unit :=
  let s1 := { s with pdAddrs := some addrs }
  match buildTxnClients env addrs (txnConnectConfig env) 0 env.concurrency with
  | Except.error e => (s1, Except.error e)
  | Except.ok clients => ({ s1 with txnClients := some clients }, Except.ok ())

/-- `do_async_raw_connect` of `src/tikv/mod.rs`: creates one raw client and,
only on success, replaces `TIKV_RAW_CLIENT`. -/
def do_async_raw_connect (env : ConnEnv) (addrs : List String) (s : GlobalState) :
    GlobalState × Except ConnError Unit :=
  match env.newRawClient addrs (rawConnectConfig env) with
  | Except.error e => (s, Except.error e)
  | Except.ok client => ({ s with rawClient := some client }, Except.ok ())

/-- `do_async_connect` of `src/tikv/mod.rs`: transactional connect, then raw
connect, short-circuiting on the first error. -/
def do_async_connect (env : ConnEnv) (addrs : List String) (s : GlobalState) :
    GlobalState × Except ConnError Unit :=
  match do_async_txn_connect env addrs s with
  | (s1, Except.error e) => (s1, Except.error e)
  | (s1, Except.ok _) => do_async_raw_connect env addrs s1

/-- Modelled from the spec: `fetch_idx_and_add` (defined outside `src/`) is
"a process-wide atomic counter incremented ... on each call"; it returns the
pre-increment value, and the counter starts at 0 at process start. -/
def fetch_idx_and_add (c : Nat) : Nat × Nat := (c, c + 1)

/-- `gen_next_meta_index` of `src/tikv/mod.rs`:
`fetch_idx_and_add() % config_meta_key_number_or_default()`, with the
configured meta key number `N` passed explicitly (it is a configuration
value resolved outside this module, fixed at process start). Returns the
slot and the updated counter. -/
def gen_next_meta_index (N : Nat) (c : Nat) : Nat × Nat :=
  let r := fetch_idx_and_add c
  (r.1 % N, r.2)

/-- The slots returned by `m` consecutive `gen_next_meta_index` calls from
counter state `c`. -/
def metaIndexTrace (N : Nat) (c : Nat) : Nat → List Nat
  | 0 => []
  | Nat.succ m =>
    let r := gen_next_meta_index N c
    r.1 :: metaIndexTrace N r.2 m

/-- The client indices selected by `m` consecutive successful
`get_txn_client` calls from state `s` (empty if a call errors or panics). -/
def txnSelectTrace (s : GlobalState) : Nat → List Nat
  | 0 => []
  | Nat.succ m =>
    match get_txn_client s with
    | some (Except.ok (_, s2)) => s2.txnClientIdx :: txnSelectTrace s2 m
    | _ => []

/-- Protocol response frame (the crate's `Frame`), to the extent the `LTRIM`
layer builds one. -/
inductive Frame where
  | simple (s : String)
  | error (msg : String)
  | integer (n : Int)
  | null
  deriving DecidableEq, Repr

/-- Modelled from the spec: `resp_err` of `src/utils.rs` (not under `src/`)
wraps a message into an error response frame. -/
def resp_err (msg : String) : Frame := Frame.error msg

/-- Modelled from the spec: `resp_invalid_arguments` of `src/utils.rs` (not
under `src/`) is the invalid-arguments response produced by the calling
layer. -/
def resp_invalid_arguments : Frame := resp_err "Invalid arguments"

/-- Model of Rust's `str::parse::<i64>`: an optional `+`/`-` sign followed by
at least one ASCII digit, with the value required to fit in `i64`
(`[-2^63, 2^63 - 1]`); anything else fails. -/
def digitsToNat (acc : Nat) : List Char → Option Nat
  | [] => some acc
  | c :: cs =>
    if c.isDigit then digitsToNat (acc * 10 + (c.toNat - 48)) cs else none

/-- Value of a non-empty all-digit character list, `none` otherwise. -/
def parseNatDigits : List Char → Option Nat
  | [] => none
  | l => digitsToNat 0 l

/-- `str::parse::<i64>` on a string. -/
def parseI64 (s : String) : Option Int :=
  match s.toList with
  | '+' :: rest =>
    (parseNatDigits rest).bind fun n =>
      if n ≤ 2 ^ 63 - 1 then some (n : Int) else none
  | '-' :: rest =>
    (parseNatDigits rest).bind fun n =>
      if n ≤ 2 ^ 63 then some (-(n : Int)) else none
  | l =>
    (parseNatDigits l).bind fun n =>
      if n ≤ 2 ^ 63 - 1 then some (n : Int) else none

/-- The `Ltrim` command value of `src/cmd/ltrim.rs` (Rust's `end` field is
`end_` here, `end` being reserved in Lean). -/
structure Ltrim where
  key : String
  start : Int
  end_ : Int
  valid : Bool
  deriving DecidableEq, Repr

/-- `Ltrim::new`. -/
def Ltrim.new (key : String) (start end_ : Int) : Ltrim :=
  { key := key, start := start, end_ := end_, valid := true }

/-- `Ltrim::new_invalid`. -/
def Ltrim.new_invalid : Ltrim :=
  { key := "", start := 0, end_ := 0, valid := false }

/-- `Ltrim::parse_argv` of `src/cmd/ltrim.rs`: wrong arity or a start/end
that fails `i64` parsing yields `Ok(new_invalid)`; otherwise a valid command
with the parsed fields. It never returns `Err`. -/
def Ltrim.parse_argv (argv : List String) : Except String Ltrim :=
  if h : argv.length = 3 then
    let key := argv.get ⟨0, by omega⟩
    match parseI64 (argv.get ⟨1, by omega⟩) with
    | none => Except.ok Ltrim.new_invalid
    | some start =>
      match parseI64 (argv.get ⟨2, by omega⟩) with
      | none => Except.ok Ltrim.new_invalid
      | some e => Except.ok (Ltrim.new key start e)
  else Except.ok Ltrim.new_invalid

/-- An observable interaction with the backend layer from the `LTRIM`
command: construction and invocation of the transactional command context
`ListCommandCtx::do_async_txnkv_ltrim` with the command's parameters. -/
inductive BackendEffect where
  | ctxLtrim (key : String) (start end_ : Int)
  deriving DecidableEq, Repr

/-- Environment of `Ltrim::ltrim`: the deployment flag `is_use_txn_api()` and
the externally defined result frame of
`ListCommandCtx::do_async_txnkv_ltrim` (`src/tikv/list.rs`, outside the
files under `src/`). -/
structure CmdEnv where
  useTxnApi : Bool
  txnkvLtrim : String → Int → Int → Frame

/-- `Ltrim::ltrim` of `src/cmd/ltrim.rs`, with its backend interactions made
explicit: an invalid command returns the invalid-arguments response and
touches nothing; with the transactional API the context is constructed and
invoked; otherwise the raw path refuses with `resp_err "not supported yet"`
and touches nothing. -/
def Ltrim.ltrim (self : Ltrim) (env : CmdEnv) : Frame × List BackendEffect :=
  if self.valid = false then (resp_invalid_arguments, [])
  else if env.useTxnApi then
    (env.txnkvLtrim self.key self.start self.end_,
      [BackendEffect.ctxLtrim self.key self.start self.end_])
  else (resp_err "not supported yet", [])

/-! Concrete values used by witness theorems. -/

/-- A fully connected state with a pool of two transactional clients. -/
def connectedStateW : GlobalState :=
  { pdAddrs := some ["pd"], rawClient := some ⟨0⟩,
    txnClients := some [⟨1⟩, ⟨2⟩], txnClientIdx := 0 }

/-- The partially connected state named by the specification: raw client set,
transactional client list unset. -/
def rawOnlyState : GlobalState :=
  { pdAddrs := none, rawClient := some ⟨0⟩, txnClients := none, txnClientIdx := 0 }

/-- A connect environment in which every backend client creation fails. -/
def envFailW : ConnEnv :=
  { timeout := 0, allowBatch := false, completionQueueSize := 0,
    grpcKeepaliveTime := 0, grpcKeepaliveTimeout := 0, overloadThreshold := 0,
    maxBatchSize := 0, maxInflightRequests := 0, maxBatchWaitTime := 0,
    caFile := "", certFile := "", keyFile := "", concurrency := 2,
    newTxnClient := fun _ _ _ => Except.error (ConnError.err "refused"),
    newRawClient := fun _ _ => Except.error (ConnError.err "refused") }

/-- A connect environment in which every backend client creation succeeds. -/
def envOkW : ConnEnv :=
  { timeout := 0, allowBatch := false, completionQueueSize := 0,
    grpcKeepaliveTime := 0, grpcKeepaliveTimeout := 0, overloadThreshold := 0,
    maxBatchSize := 0, maxInflightRequests := 0, maxBatchWaitTime := 0,
    caFile := "", certFile := "", keyFile := "", concurrency := 2,
    newTxnClient := fun i _ _ => Except.ok ⟨i⟩,
    newRawClient := fun _ _ => Except.ok ⟨7⟩ }

/-- A command environment with the transactional API enabled. -/
def cmdEnvTxnW : CmdEnv := { useTxnApi := true, txnkvLtrim := fun _ _ _ => Frame.null }

/-- A command environment with the transactional API disabled (raw path). -/
def cmdEnvRawW : CmdEnv := { useTxnApi := false, txnkvLtrim := fun _ _ _ => Frame.null }

/-! Helper lemmas shared by the claim theorems. -/

/-- Both accessors return the not-connected error whenever the raw client
global is unset. -/
lemma accessors_error_of_rawClient_none (s : GlobalState) (h : s.rawClient = none) :
    get_client s = some (Except.error REDIS_BACKEND_NOT_CONNECTED_ERR) ∧
    get_txn_client s = some (Except.error REDIS_BACKEND_NOT_CONNECTED_ERR) := by
  constructor <;> simp [get_client, get_txn_client, h]

/-- `do_async_txn_connect` never modifies the raw client global. -/
lemma txn_connect_preserves_rawClient (env : ConnEnv) (addrs : List String)
    (s : GlobalState) :
    (do_async_txn_connect env addrs s).1.rawClient = s.rawClient := by
  unfold do_async_txn_connect
  cases buildTxnClients env addrs (txnConnectConfig env) 0 env.concurrency <;> rfl

/-- A failing `do_async_connect` leaves the raw client global unchanged. -/
lemma connect_error_preserves_rawClient (env : ConnEnv) (addrs : List String)
    (s : GlobalState) (e : ConnError)
    (hf : (do_async_connect env addrs s).2 = Except.error e) :
    (do_async_connect env addrs s).1.rawClient = s.rawClient := by
  unfold do_async_connect do_async_txn_connect do_async_raw_connect at hf ⊢
  cases hb : buildTxnClients env addrs (txnConnectConfig env) 0 env.concurrency with
  | error e' => simp [hb]
  | ok clients =>
    cases hr : env.newRawClient addrs (rawConnectConfig env) with
    | error e' => simp [hb, hr]
    | ok c => simp [hb, hr] at hf

/-! Claim theorems. -/

/-- C1 counterexample: in the partial-connection state with the raw client
set and the transactional client list unset, `get_txn_client` does not
return `REDIS_BACKEND_NOT_CONNECTED_ERR` — it hits the `unwrap` of a `None`
`TIKV_TXN_CLIENTS` (the `none` outcome, a Rust panic), because the guard
tests only `TIKV_RAW_CLIENT`. -/
theorem get_txn_client_partial_state_panics :
    get_txn_client rawOnlyState = none ∧
    get_txn_client rawOnlyState ≠
      some (Except.error REDIS_BACKEND_NOT_CONNECTED_ERR) := by
  constructor
  · rfl
  · intro h
    rw [show get_txn_client rawOnlyState = none from rfl] at h
    exact Option.noConfusion h

/-- C1 (amended): `get_client` never panics, and whenever the raw client
global is unset — in particular in every state before any successful
connect, partial or not — both accessors return
`REDIS_BACKEND_NOT_CONNECTED_ERR`. (As stated, the claim fails: with the raw
client set but the transactional client list unset, `get_txn_client`
panics.) -/
theorem accessors_before_connect (s : GlobalState) :
    (get_client s).isSome = true ∧
    (s.rawClient = none →
      get_client s = some (Except.error REDIS_BACKEND_NOT_CONNECTED_ERR) ∧
      get_txn_client s = some (Except.error REDIS_BACKEND_NOT_CONNECTED_ERR)) := by
  refine ⟨?_, accessors_error_of_rawClient_none s⟩
  cases h : s.rawClient <;> simp [get_client, h]

/-- C1 witness: the amended theorem applied at the process-start state. -/
theorem accessors_before_connect_witness :
    GlobalState.initial.rawClient = none ∧
    (get_client GlobalState.initial =
        some (Except.error REDIS_BACKEND_NOT_CONNECTED_ERR) ∧
      get_txn_client GlobalState.initial =
        some (Except.error REDIS_BACKEND_NOT_CONNECTED_ERR)) :=
  ⟨rfl, (accessors_before_connect GlobalState.initial).2 rfl⟩

/-- C3: with meta key number `N = 4` and the counter in its process-start
state, 8 consecutive `gen_next_meta_index` calls return `0,1,2,3,0,1,2,3`;
and for every positive `N`, every returned slot lies in `[0, N)`. -/
theorem gen_next_meta_index_round_robin :
    metaIndexTrace 4 0 8 = [0, 1, 2, 3, 0, 1, 2, 3] ∧
    ∀ (N c m x : Nat), 0 < N → x ∈ metaIndexTrace N c m → x < N := by
  refine ⟨by decide, ?_⟩
  intro N c m
  induction m generalizing c with
  | zero => intro x _ h; simp [metaIndexTrace] at h
  | succ m ih =>
    intro x hN h
    simp only [metaIndexTrace, gen_next_meta_index, fetch_idx_and_add,
      List.mem_cons] at h
    rcases h with h | h
    · subst h; exact Nat.mod_lt _ hN
    · exact ih (c + 1) x hN h

/-- C3 witness: the in-range part of the theorem applied at slot value 2 in
the concrete 8-call trace for `N = 4`. -/
theorem gen_next_meta_index_round_robin_witness :
    (0 < 4 ∧ 2 ∈ metaIndexTrace 4 0 8) ∧ 2 < 4 :=
  ⟨⟨by decide, by decide⟩,
    gen_next_meta_index_round_robin.2 4 0 8 2 (by decide) (by decide)⟩

/-- C5: a command marked invalid by `Ltrim::parse_argv` executes to the
invalid-arguments response with an empty backend-effect list: the
transactional command context is never constructed or invoked and no
backend interaction happens. -/
theorem ltrim_invalid_no_ctx (argv : List String) (cmd : Ltrim) (env : CmdEnv)
    (_hp : Ltrim.parse_argv argv = Except.ok cmd) (hv : cmd.valid = false) :
    cmd.ltrim env = (resp_invalid_arguments, []) := by
  simp [Ltrim.ltrim, hv]

/-- C5 witness: the theorem applied to the parse of `["k", "x", "1"]`, whose
second argument is not numeric. -/
theorem ltrim_invalid_no_ctx_witness :
    (Ltrim.parse_argv ["k", "x", "1"] = Except.ok Ltrim.new_invalid ∧
      Ltrim.new_invalid.valid = false) ∧
    Ltrim.new_invalid.ltrim cmdEnvTxnW = (resp_invalid_arguments, []) :=
  ⟨⟨rfl, rfl⟩, ltrim_invalid_no_ctx ["k", "x", "1"] Ltrim.new_invalid cmdEnvTxnW rfl rfl⟩

/-- C6: a valid `LTRIM` executed with the transactional API disabled takes
the raw path, which refuses with the explicit not-supported error response
and performs no backend interaction (empty effect list). -/
theorem ltrim_raw_path_refuses (cmd : Ltrim) (env : CmdEnv)
    (hv : cmd.valid = true) (ht : env.useTxnApi = false) :
    cmd.ltrim env = (resp_err "not supported yet", []) := by
  simp [Ltrim.ltrim, hv, ht]

/-- C6 witness: the theorem applied to the valid command
`LTRIM k 0 1` in a raw-mode deployment. -/
theorem ltrim_raw_path_refuses_witness :
    ((Ltrim.new "k" 0 1).valid = true ∧ cmdEnvRawW.useTxnApi = false) ∧
    (Ltrim.new "k" 0 1).ltrim cmdEnvRawW = (resp_err "not supported yet", []) :=
  ⟨⟨rfl, rfl⟩, ltrim_raw_path_refuses (Ltrim.new "k" 0 1) cmdEnvRawW rfl rfl⟩

/-- C8: in both connect paths the built client configuration carries the TLS
security material (the CA/cert/key triple) exactly when at least one of the
three paths is non-empty, and carries none when all three are empty. -/
theorem connect_config_security (env : ConnEnv) :
    (txnConnectConfig env).security =
      (if env.caFile ≠ "" ∨ env.certFile ≠ "" ∨ env.keyFile ≠ ""
        then some (env.caFile, env.certFile, env.keyFile) else none) ∧
    (rawConnectConfig env).security =
      (if env.caFile ≠ "" ∨ env.certFile ≠ "" ∨ env.keyFile ≠ ""
        then some (env.caFile, env.certFile, env.keyFile) else none) := by
  constructor <;>
    · simp only [txnConnectConfig, rawConnectConfig]
      split <;>
        simp [TikvConfig.default, TikvConfig.with_timeout, TikvConfig.with_kv_timeout,
          TikvConfig.with_kv_allow_batch, TikvConfig.with_kv_completion_queue_size,
          TikvConfig.with_kv_grpc_keepalive_time, TikvConfig.with_kv_grpc_keepalive_timeout,
          TikvConfig.with_kv_overload_threshold, TikvConfig.with_kv_max_batch_size,
          TikvConfig.with_kv_max_inflight_requests, TikvConfig.with_kv_max_batch_wait_time,
          TikvConfig.with_security]

/-- C10: `do_async_txn_connect` replaces `PD_ADDRS` with the supplied
addresses unconditionally (so also on every failure), and on failure leaves
`TIKV_TXN_CLIENTS` exactly as it was: no partially built client vector is
ever stored. -/
theorem txn_connect_sets_pd_addrs (env : ConnEnv) (addrs : List String)
    (s : GlobalState) :
    (do_async_txn_connect env addrs s).1.pdAddrs = some addrs ∧
    ∀ e, (do_async_txn_connect env addrs s).2 = Except.error e →
      (do_async_txn_connect env addrs s).1.txnClients = s.txnClients := by
  unfold do_async_txn_connect
  cases hb : buildTxnClients env addrs (txnConnectConfig env) 0 env.concurrency <;> simp

/-- C10 witness: the theorem applied to a connect whose first client
creation is refused, from the process-start state. -/
theorem txn_connect_sets_pd_addrs_witness :
    (do_async_txn_connect envFailW ["pd"] GlobalState.initial).1.pdAddrs = some ["pd"] ∧
    ((do_async_txn_connect envFailW ["pd"] GlobalState.initial).2 =
        Except.error (ConnError.err "refused") ∧
      (do_async_txn_connect envFailW ["pd"] GlobalState.initial).1.txnClients =
        GlobalState.initial.txnClients) :=
  ⟨(txn_connect_sets_pd_addrs envFailW ["pd"] GlobalState.initial).1,
    rfl,
    (txn_connect_sets_pd_addrs envFailW ["pd"] GlobalState.initial).2
      (ConnError.err "refused") rfl⟩

/-- C4: starting from a not-yet-connected state, a `do_async_connect` call
that fails at any point — in the transactional client loop or at the raw
client — leaves both session accessors returning
`REDIS_BACKEND_NOT_CONNECTED_ERR`: no partially connected state is
observable through them. -/
theorem connect_failure_not_connected (env : ConnEnv) (addrs : List String)
    (s : GlobalState) (e : ConnError) (h0 : s.rawClient = none)
    (hf : (do_async_connect env addrs s).2 = Except.error e) :
    get_client (do_async_connect env addrs s).1 =
      some (Except.error REDIS_BACKEND_NOT_CONNECTED_ERR) ∧
    get_txn_client (do_async_connect env addrs s).1 =
      some (Except.error REDIS_BACKEND_NOT_CONNECTED_ERR) := by
  apply accessors_error_of_rawClient_none
  rw [connect_error_preserves_rawClient env addrs s e hf, h0]

/-- C4 witness: the theorem applied to a fully refused connect from the
process-start state. -/
theorem connect_failure_not_connected_witness :
    (GlobalState.initial.rawClient = none ∧
      (do_async_connect envFailW ["pd"] GlobalState.initial).2 =
        Except.error (ConnError.err "refused")) ∧
    (get_client (do_async_connect envFailW ["pd"] GlobalState.initial).1 =
        some (Except.error REDIS_BACKEND_NOT_CONNECTED_ERR) ∧
      get_txn_client (do_async_connect envFailW ["pd"] GlobalState.initial).1 =
        some (Except.error REDIS_BACKEND_NOT_CONNECTED_ERR)) :=
  ⟨⟨rfl, rfl⟩, connect_failure_not_connected envFailW ["pd"] GlobalState.initial
    (ConnError.err "refused") rfl rfl⟩

/-- A successful run of the transactional client loop builds exactly as many
clients as it was asked for. -/
lemma buildTxnClients_ok_length (env : ConnEnv) (addrs : List String)
    (cfg : TikvConfig) :
    ∀ n i l, buildTxnClients env addrs cfg i n = Except.ok l → l.length = n := by
  intro n
  induction n with
  | zero =>
    intro i l h
    simp [buildTxnClients] at h
    simp [← h]
  | succ m ih =>
    intro i l h
    unfold buildTxnClients at h
    cases hc : env.newTxnClient i addrs cfg with
    | error e => rw [hc] at h; exact absurd h (by simp)
    | ok c =>
      rw [hc] at h
      cases hb : buildTxnClients env addrs cfg (i + 1) m with
      | error e => rw [hb] at h; exact absurd h (by simp)
      | ok rest =>
        rw [hb] at h
        simp at h
        simp [← h, ih (i + 1) rest hb]

/-- C7: a successful `do_async_connect` stores exactly
`conn_concurrency_or_default()` transactional clients plus one raw client in
the process-wide state. -/
theorem connect_success_pool (env : ConnEnv) (addrs : List String)
    (s : GlobalState) (h : (do_async_connect env addrs s).2 = Except.ok ()) :
    ∃ clients r,
      (do_async_connect env addrs s).1.txnClients = some clients ∧
      clients.length = env.concurrency ∧
      (do_async_connect env addrs s).1.rawClient = some r := by
  unfold do_async_connect do_async_txn_connect do_async_raw_connect at h ⊢
  cases hb : buildTxnClients env addrs (txnConnectConfig env) 0 env.concurrency with
  | error e => simp [hb] at h
  | ok clients =>
    cases hr : env.newRawClient addrs (rawConnectConfig env) with
    | error e => simp [hb, hr] at h
    | ok c =>
      refine ⟨clients, c, ?_, buildTxnClients_ok_length env addrs _ env.concurrency 0 clients hb, ?_⟩ <;>
        simp [hb, hr]

/-- C7 witness: the theorem applied to a connect in which every creation
succeeds, with a pool size of 2. -/
theorem connect_success_pool_witness :
    (do_async_connect envOkW ["pd"] GlobalState.initial).2 = Except.ok () ∧
    ∃ clients r,
      (do_async_connect envOkW ["pd"] GlobalState.initial).1.txnClients = some clients ∧
      clients.length = envOkW.concurrency ∧
      (do_async_connect envOkW ["pd"] GlobalState.initial).1.rawClient = some r :=
  ⟨rfl, connect_success_pool envOkW ["pd"] GlobalState.initial rfl⟩

/-- C9: `Ltrim::parse_argv` is total and never returns `Err`: every argument
vector yields `Ok`, with the invalid variant exactly when the arity is not 3
or `start`/`end` fails `i64` parsing, and otherwise a valid command carrying
the parsed key, start and end. -/
theorem parse_argv_total (argv : List String) :
    (Ltrim.parse_argv argv).isOk = true ∧
    ∀ cmd, Ltrim.parse_argv argv = Except.ok cmd →
      ((cmd.valid = true ↔
          argv.length = 3 ∧ (parseI64 (argv.getD 1 "")).isSome ∧
            (parseI64 (argv.getD 2 "")).isSome) ∧
        (cmd.valid = true →
          cmd.key = argv.getD 0 "" ∧
            parseI64 (argv.getD 1 "") = some cmd.start ∧
            parseI64 (argv.getD 2 "") = some cmd.end_)) := by
  unfold Ltrim.parse_argv
  split
  · rename_i h3
    split
    · rename_i hp1
      refine ⟨rfl, ?_⟩
      intro cmd hc
      simp only [Except.ok.injEq] at hc
      subst hc
      simp only [List.get_eq_getElem] at hp1
      simp [Ltrim.new_invalid, h3, List.getElem?_eq_getElem, hp1]
    · rename_i st hp1
      split
      · rename_i hp2
        refine ⟨rfl, ?_⟩
        intro cmd hc
        simp only [Except.ok.injEq] at hc
        subst hc
        simp only [List.get_eq_getElem] at hp1 hp2
        simp [Ltrim.new_invalid, h3, List.getElem?_eq_getElem, hp1, hp2]
      · rename_i e hp2
        refine ⟨rfl, ?_⟩
        intro cmd hc
        simp only [Except.ok.injEq] at hc
        subst hc
        simp only [List.get_eq_getElem] at hp1 hp2
        simp [Ltrim.new, h3, List.getElem?_eq_getElem, hp1, hp2]
  · rename_i h3
    refine ⟨rfl, ?_⟩
    intro cmd hc
    simp only [Except.ok.injEq] at hc
    subst hc
    simp [Ltrim.new_invalid, h3]

/-- C9 witness: the characterization applied to the concrete parse of
`["k", "5", "-3"]`. -/
theorem parse_argv_total_witness :
    Ltrim.parse_argv ["k", "5", "-3"] = Except.ok (Ltrim.new "k" 5 (-3)) ∧
    (((Ltrim.new "k" 5 (-3)).valid = true ↔
        (["k", "5", "-3"] : List String).length = 3 ∧
          (parseI64 ((["k", "5", "-3"] : List String).getD 1 "")).isSome ∧
          (parseI64 ((["k", "5", "-3"] : List String).getD 2 "")).isSome) ∧
      ((Ltrim.new "k" 5 (-3)).valid = true →
        (Ltrim.new "k" 5 (-3)).key = (["k", "5", "-3"] : List String).getD 0 "" ∧
          parseI64 ((["k", "5", "-3"] : List String).getD 1 "") =
            some (Ltrim.new "k" 5 (-3)).start ∧
          parseI64 ((["k", "5", "-3"] : List String).getD 2 "") =
            some (Ltrim.new "k" 5 (-3)).end_)) :=
  ⟨rfl, (parse_argv_total ["k", "5", "-3"]).2 (Ltrim.new "k" 5 (-3)) rfl⟩

/-! Round-robin counting machinery for the transactional session selector. -/

/-- The block of `L` consecutive counter values starting at `c`, reduced
modulo `L`. -/
def rotBlock (c L : Nat) : List Nat := (List.range L).map fun i => (c + i) % L

/-- The first `m` selector values from counter `c` with pool size `L`. -/
def rotTrace (c L m : Nat) : List Nat := (List.range m).map fun i => (c + i) % L

lemma count_range_eq (k n : Nat) : (List.range n).count k = if k < n then 1 else 0 := by
  induction n with
  | zero => simp
  | succ n ih =>
    rw [List.range_succ, List.count_append, ih]
    by_cases h1 : k < n
    · have h2 : k < n + 1 := by omega
      have h3 : k ≠ n := by omega
      simp [h1, h2, List.count_cons, h3]
    · by_cases h2 : k = n
      · subst h2
        simp [h1, List.count_cons]
      · have h3 : ¬ k < n + 1 := by omega
        simp [h1, h2, h3, List.count_cons, Ne.symm h2]

lemma rotBlock_zero (L : Nat) : rotBlock 0 L = List.range L := by
  unfold rotBlock
  rw [show ((List.range L).map fun i => (0 + i) % L) = (List.range L).map id from
    List.map_congr_left fun i hi => by
      rw [List.mem_range] at hi
      simp [Nat.mod_eq_of_lt hi]]
  exact List.map_id _

lemma rotBlock_succ_perm (c L : Nat) (hL : 0 < L) :
    (rotBlock (c + 1) L).Perm (rotBlock c L) := by
  obtain ⟨L', rfl⟩ : ∃ L', L = L' + 1 := ⟨L - 1, by omega⟩
  have hblockc : rotBlock c (L' + 1) =
      (c % (L' + 1)) :: (List.range L').map fun i => (c + 1 + i) % (L' + 1) := by
    unfold rotBlock
    rw [List.range_succ_eq_map, List.map_cons, List.map_map]
    refine congrArg₂ _ (by simp) (List.map_congr_left fun i _ => ?_)
    show (c + (i + 1)) % (L' + 1) = (c + 1 + i) % (L' + 1)
    congr 1
    omega
  have hblocks : rotBlock (c + 1) (L' + 1) =
      ((List.range L').map fun i => (c + 1 + i) % (L' + 1)) ++ [c % (L' + 1)] := by
    unfold rotBlock
    rw [List.range_succ, List.map_append, List.map_singleton]
    refine congrArg₂ _ rfl (congrArg (fun x => [x]) ?_)
    show (c + 1 + L') % (L' + 1) = c % (L' + 1)
    rw [show c + 1 + L' = c + (L' + 1) from by omega]
    exact Nat.add_mod_right c (L' + 1)
  rw [hblockc, hblocks]
  exact List.perm_append_singleton _ _

lemma rotBlock_count (c L k : Nat) (hk : k < L) : (rotBlock c L).count k = 1 := by
  induction c with
  | zero => rw [rotBlock_zero, count_range_eq, if_pos hk]
  | succ c ih => rw [(rotBlock_succ_perm c L (by omega)).count_eq]; exact ih

lemma rotTrace_succ (c L m : Nat) :
    rotTrace c L (m + 1) = (c % L) :: rotTrace (c + 1) L m := by
  unfold rotTrace
  rw [List.range_succ_eq_map, List.map_cons, List.map_map]
  refine congrArg₂ _ (by simp) (List.map_congr_left fun i _ => ?_)
  show (c + (i + 1)) % L = (c + 1 + i) % L
  congr 1
  omega

lemma rotTrace_mod (c L m : Nat) :
    rotTrace (c % L + 1) L m = rotTrace (c + 1) L m := by
  unfold rotTrace
  refine List.map_congr_left fun i _ => ?_
  rw [show c % L + 1 + i = c % L + (1 + i) from by omega,
    Nat.mod_add_mod c L (1 + i)]
  congr 1
  omega

lemma rotTrace_count (L c k : Nat) (hk : k < L) :
    ∀ q, (rotTrace c L (q * L)).count k = q := by
  intro q
  induction q with
  | zero => simp [rotTrace]
  | succ q ih =>
    have hsplit : rotTrace c L ((q + 1) * L) =
        rotTrace c L (q * L) ++ rotBlock (c + q * L) L := by
      unfold rotTrace rotBlock
      rw [Nat.succ_mul, List.range_add, List.map_append, List.map_map]
      refine congrArg₂ _ rfl (List.map_congr_left fun i _ => ?_)
      show (c + (q * L + i)) % L = (c + q * L + i) % L
      congr 1
      omega
    rw [hsplit, List.count_append, ih, rotBlock_count _ _ _ hk]

/-- In a connected state, `get_txn_client` advances the counter by one modulo
the pool size, stores it back, and hands out the client at that index. -/
lemma get_txn_client_connected (s : GlobalState) (r : RawClient)
    (clients : List TxnClient) (hr : s.rawClient = some r)
    (ht : s.txnClients = some clients) (hL : 0 < clients.length) :
    get_txn_client s = some (Except.ok
      (TxnClientWrapper.new (clients.get ⟨(s.txnClientIdx + 1) % clients.length,
        Nat.mod_lt _ hL⟩),
      { s with txnClientIdx := (s.txnClientIdx + 1) % clients.length })) := by
  unfold get_txn_client
  rw [hr, ht]
  simp [hL]

/-- The trace of selected indices from a connected state is the arithmetic
selector trace. -/
lemma txnSelectTrace_eq_rotTrace (m : Nat) :
    ∀ (s : GlobalState) (r : RawClient) (clients : List TxnClient),
      s.rawClient = some r → s.txnClients = some clients → 0 < clients.length →
      txnSelectTrace s m = rotTrace (s.txnClientIdx + 1) clients.length m := by
  induction m with
  | zero => intro s r clients _ _ _; simp [txnSelectTrace, rotTrace]
  | succ m ih =>
    intro s r clients hr ht hL
    unfold txnSelectTrace
    rw [get_txn_client_connected s r clients hr ht hL]
    have ih2 := ih { s with txnClientIdx := (s.txnClientIdx + 1) % clients.length }
      r clients (by simpa using hr) (by simpa using ht) hL
    simp only [] at ih2 ⊢
    rw [ih2, rotTrace_succ, rotTrace_mod]

/-- C2: from any connected state with pool size `L ≥ 1` and any initial
counter value, over `M` sequential `get_txn_client` calls with `L ∣ M` each
client index `k < L` is selected exactly `M / L` times. -/
theorem txn_selector_round_robin (s : GlobalState) (r : RawClient)
    (clients : List TxnClient) (M k : Nat)
    (hr : s.rawClient = some r) (ht : s.txnClients = some clients)
    (hL : 0 < clients.length) (hdvd : clients.length ∣ M)
    (hk : k < clients.length) :
    (txnSelectTrace s M).count k = M / clients.length := by
  rw [txnSelectTrace_eq_rotTrace M s r clients hr ht hL]
  obtain ⟨q, rfl⟩ := hdvd
  rw [Nat.mul_comm, rotTrace_count clients.length (s.txnClientIdx + 1) k hk q,
    Nat.mul_div_cancel q hL]

/-- C2 witness: the theorem applied to a connected state with a pool of two
clients and four calls: each index is selected twice. -/
theorem txn_selector_round_robin_witness :
    (connectedStateW.rawClient = some ⟨0⟩ ∧
      connectedStateW.txnClients = some [⟨1⟩, ⟨2⟩] ∧
      0 < ([⟨1⟩, ⟨2⟩] : List TxnClient).length ∧
      ([⟨1⟩, ⟨2⟩] : List TxnClient).length ∣ 4 ∧
      1 < ([⟨1⟩, ⟨2⟩] : List TxnClient).length) ∧
    (txnSelectTrace connectedStateW 4).count 1 = 4 / ([⟨1⟩, ⟨2⟩] : List TxnClient).length :=
  ⟨⟨rfl, rfl, by decide, by decide, by decide⟩,
    txn_selector_round_robin connectedStateW ⟨0⟩ [⟨1⟩, ⟨2⟩] 4 1 rfl rfl
      (by decide) (by decide) (by decide)⟩
